import Mathlib

/- Shallow embedding of the 2D physics kernel of the ten-minute-physics-note
repository (src/ch-03/index.js, src/ch-03-practice/index.js,
src/ch-03-practice/index3.js, src/unnamed/part_000).  The kernel is embedded
over an arbitrary linear ordered field; theorems instantiate it at ℚ (exact
rational arithmetic) or at ℝ (where π, square roots or Math.exp appear).
Mutating JavaScript methods are modelled as value-returning functions. -/

variable {K : Type} [LinearOrderedField K]

/-- Vector2 (src/ch-03/index.js): 2D vector with mutating fluent methods,
modelled as a value type where each method returns the updated vector. -/
structure Vector2 (K : Type) where
  x : K
  y : K
deriving DecidableEq

namespace Vector2

/-- Vector2.add(v, s = 1.0): this.x += v.x * s; this.y += v.y * s. -/
def add (self v : Vector2 K) (s : K) : Vector2 K :=
  ⟨self.x + v.x * s, self.y + v.y * s⟩

/-- Vector2.subtractVectors(a, b): this.x = a.x - b.x; this.y = a.y - b.y. -/
def subtractVectors (a b : Vector2 K) : Vector2 K :=
  ⟨a.x - b.x, a.y - b.y⟩

/-- Vector2.scale(s): this.x *= s; this.y *= s. -/
def scale (self : Vector2 K) (s : K) : Vector2 K :=
  ⟨self.x * s, self.y * s⟩

/-- Vector2.dot(v): this.x * v.x + this.y * v.y. -/
def dot (self v : Vector2 K) : K :=
  self.x * v.x + self.y * v.y

end Vector2

/-- Ball (src/ch-03/index.js): radius, mass, pos, vel.  Scene.setupBalls
derives mass = π·radius² at construction; the constructor itself takes the
mass as a separate argument, so the field is kept independent here. -/
structure Ball (K : Type) where
  radius : K
  mass : K
  pos : Vector2 K
  vel : Vector2 K
deriving DecidableEq

namespace Ball

/-- Ball.simulate(dt, gravity) (src/ch-03/index.js):
this.vel.add(gravity, dt); this.pos.add(this.vel, dt).
The position update reads the already-updated velocity (symplectic Euler). -/
def simulate (self : Ball K) (dt : K) (gravity : Vector2 K) : Ball K :=
  let vel := self.vel.add gravity dt
  let pos := self.pos.add vel dt
  { self with vel := vel, pos := pos }

end Ball

namespace Core

/-- Core.handleBallsCollision(ball1, ball2, restitution) (src/ch-03/index.js;
textually identical in src/ch-03-practice/index3.js as
Renderer.handleBallsCollision).  The source computes d = dir.length()
= √(dir·dir); the embedding is over an exact field, so the length is passed
as the argument d, characterized in the theorems by 0 ≤ d and
d * d = dir.dot dir.  Returns the updated pair (ball1, ball2). -/
def handleBallsCollision (ball1 ball2 : Ball K) (restitution d : K) :
    Ball K × Ball K :=
  let dir := Vector2.subtractVectors ball2.pos ball1.pos
  if d = 0 ∨ d > ball1.radius + ball2.radius then (ball1, ball2)
  else
    let dir := dir.scale (1 / d)
    let corr := (ball1.radius + ball2.radius - d) / 2
    let ball1 := { ball1 with pos := ball1.pos.add dir (-corr) }
    let ball2 := { ball2 with pos := ball2.pos.add dir corr }
    let v1 := ball1.vel.dot dir
    let v2 := ball2.vel.dot dir
    let m1 := ball1.mass
    let m2 := ball2.mass
    let newV1 := (m1 * v1 + m2 * v2 - m2 * (v1 - v2) * restitution) / (m1 + m2)
    let newV2 := (m1 * v1 + m2 * v2 - m1 * (v2 - v1) * restitution) / (m1 + m2)
    let ball1 := { ball1 with vel := ball1.vel.add dir (newV1 - v1) }
    let ball2 := { ball2 with vel := ball2.vel.add dir (newV2 - v2) }
    (ball1, ball2)

/-- The unit contact normal used by Core.handleBallsCollision: the source's
dir = ball2.pos − ball1.pos after dir.scale(1.0 / d). -/
def normalDir (ball1 ball2 : Ball K) (d : K) : Vector2 K :=
  (Vector2.subtractVectors ball2.pos ball1.pos).scale (1 / d)

/-- Core.handleWallsCollision(ball, worldSize) (src/ch-03/index.js): four
sequential wall checks; each clamps the position a radius inset from the wall
and negates the velocity component (this variant applies no restitution
factor, i.e. behaves as restitution 1). -/
def handleWallsCollision (ball : Ball K) (worldSize : Vector2 K) : Ball K :=
  let ball := if ball.pos.x < ball.radius then
    { ball with
      pos :=⟨ball.radius, ball.pos.y⟩,
      vel := ⟨-ball.vel.x, ball.vel.y⟩ }
    else ball
  let ball := if ball.pos.x > worldSize.x - ball.radius then
    { ball with
      pos :=⟨worldSize.x - ball.radius, ball.pos.y⟩,
      vel := ⟨-ball.vel.x, ball.vel.y⟩ }
    else ball
  let ball := if ball.pos.y < ball.radius then
    { ball with
      pos :=⟨ball.pos.x, ball.radius⟩,
      vel := ⟨ball.vel.x, -ball.vel.y⟩ }
    else ball
  let ball := if ball.pos.y > worldSize.y - ball.radius then
    { ball with
      pos :=⟨ball.pos.x, worldSize.y - ball.radius⟩,
      vel := ⟨ball.vel.x, -ball.vel.y⟩ }
    else ball
  ball

end Core

namespace World

/-- World.handleWallCollision(ball) (src/ch-03-practice/index.js): clamps the
ball's CENTER to the rectangle [0, size.x] × [0, size.y] — no radius inset —
and negates the velocity component.  `size` is the world size. -/
def handleWallCollision (ball : Ball K) (size : Vector2 K) : Ball K :=
  let ball := if ball.pos.x > size.x then
    { ball with
      pos :=⟨size.x, ball.pos.y⟩,
      vel := ⟨-ball.vel.x, ball.vel.y⟩ }
    else ball
  let ball := if ball.pos.x < 0 then
    { ball with
      pos :=⟨0, ball.pos.y⟩,
      vel := ⟨-ball.vel.x, ball.vel.y⟩ }
    else ball
  let ball := if ball.pos.y < 0 then
    { ball with
      pos :=⟨ball.pos.x, 0⟩,
      vel := ⟨ball.vel.x, -ball.vel.y⟩ }
    else ball
  let ball := if ball.pos.y > size.y then
    { ball with
      pos :=⟨ball.pos.x, size.y⟩,
      vel := ⟨ball.vel.x, -ball.vel.y⟩ }
    else ball
  ball

end World

/-- Ball of the unnamed single-ball demo (src/unnamed/part_000): plain scalar
fields radius, x, y, vx, vy. -/
structure BallP (K : Type) where
  radius : K
  x : K
  y : K
  vx : K
  vy : K
deriving DecidableEq

namespace BallP

/-- Ball.move(timeStep) (src/unnamed/part_000). -/
def move (self : BallP K) (timeStep : K) : BallP K :=
  { self with x := self.x + self.vx * timeStep, y := self.y + self.vy * timeStep }

/-- Ball.applyGravity(gx, gy, timeStep) (src/unnamed/part_000). -/
def applyGravity (self : BallP K) (gx gy timeStep : K) : BallP K :=
  { self with vx := self.vx + gx * timeStep, vy := self.vy + gy * timeStep }

end BallP

namespace CoreP

/-- Core.handleCollision (src/unnamed/part_000): left wall at x = 0, right
wall at x = simWidth, ground at y = 0, no ceiling check; clamps the center
and negates the velocity component, conditioned only on position. -/
def handleCollision (ball : BallP K) (simWidth : K) : BallP K :=
  let ball := if ball.x < 0 then { ball with x := 0, vx := -ball.vx } else ball
  let ball := if ball.x > simWidth then
    { ball with x := simWidth, vx := -ball.vx } else ball
  let ball := if ball.y < 0 then { ball with y := 0, vy := -ball.vy } else ball
  ball

/-- Core.simulate (src/unnamed/part_000): applyGravity, then move, then
handleCollision, with the scene's gravity and timeStep passed explicitly. -/
def simulate (ball : BallP K) (gx gy timeStep simWidth : K) : BallP K :=
  handleCollision ((ball.applyGravity gx gy timeStep).move timeStep) simWidth

end CoreP

/-- Cue (src/ch-03-practice/index.js): the charge/release state machine.
`angle` is `undefined` initially and after reset, modelled as `Option ℝ`;
the implicit Date.now() clock is passed explicitly as `now` to the methods
that read it.  Timestamps, power and shift live in ℝ because the charge
curve uses Math.exp. -/
structure Cue where
  power : ℝ
  direction : Vector2 ℝ
  angle : Option ℝ
  isCharging : Bool
  startChargeTime : ℝ
  shift : ℝ

namespace Cue

/-- Cue.startCharge() (src/ch-03-practice/index.js): unconditionally sets
isCharging = true and records Date.now() as startChargeTime. -/
def startCharge (self : Cue) (now : ℝ) : Cue :=
  { self with isCharging := true, startChargeTime := now }

/-- Cue.getCurveValue(maxValue, minValue, x) (src/ch-03-practice/index.js):
exponential ease-out maxValue − (maxValue − minValue)·e^(−K·x) with K = 3;
Math.exp is modelled as Real.exp. -/
noncomputable def getCurveValue (maxValue minValue x : ℝ) : ℝ :=
  maxValue - (maxValue - minValue) * Real.exp (-3 * x)

/-- Cue.updateCharge() (src/ch-03-practice/index.js): no-op unless charging;
otherwise recomputes power (range [MIN_POWER, MAX_POWER] = [10, 100]) and
shift (range [MIN_SHIFT, MAX_SHIFT] = [0, 30]) from the elapsed time, with
normalizedTime = min(elapsed / CHARGE_TIME, 1) and CHARGE_TIME = 2000 ms. -/
noncomputable def updateCharge (self : Cue) (now : ℝ) : Cue :=
  if self.isCharging = false then self
  else
    let elapsedTime := now - self.startChargeTime
    let normalizedTime := min (elapsedTime / 2000) 1
    { self with
      power := getCurveValue 100 10 normalizedTime,
      shift := getCurveValue 30 0 normalizedTime }

/-- Cue.reset() (src/ch-03-practice/index.js): clears isCharging,
startChargeTime, power and angle; `shift` and `direction` are not touched. -/
def reset (self : Cue) : Cue :=
  { self with
    isCharging := false, startChargeTime := 0, power := 0, angle := none }

/-- Cue.release(ball) (src/ch-03-practice/index.js): no-op unless charging;
otherwise applies the launch impulse opposite the aim direction to the
ball's velocity and resets the cue.  Returns the updated (cue, ball). -/
noncomputable def release (self : Cue) (ball : Ball ℝ) : Cue × Ball ℝ :=
  if self.isCharging = false then (self, ball)
  else
    let stickMass := Real.pi * 0.5 * 0.5 * 2
    let stickVel := self.power / 2
    let ballVelAfter := stickMass * stickVel / ball.mass
    let ball := { ball with vel := ball.vel.add self.direction (-ballVelAfter) }
    (self.reset, ball)

end Cue

namespace Game

/-- Game.handleKeyDown (src/ch-03-practice/index.js): starts a charge only
when the pressed key is Space and the cue is not already charging; any other
keydown leaves the cue unchanged. -/
def handleKeyDown (code : String) (cue : Cue) (now : ℝ) : Cue :=
  if code = "Space" ∧ cue.isCharging = false then cue.startCharge now else cue

end Game

/- ================= Theorems ================= -/

/-- Claim C2: the integrator updates velocity strictly before position: for
every body, gravity and positive dt, Ball.simulate sets the velocity to
vel + gravity·dt and then the position to pos + (updated velocity)·dt — the
displacement uses the post-update velocity, not the pre-update one; the
unnamed demo's applyGravity-then-move ordering (Core.simulate) agrees. -/
theorem C2_velocity_before_position (b : Ball ℚ) (g : Vector2 ℚ) (dt : ℚ)
    (hdt : 0 < dt) (bp : BallP ℚ) (gx gy : ℚ) :
    (b.simulate dt g).vel = b.vel.add g dt ∧
    (b.simulate dt g).pos = b.pos.add ((b.simulate dt g).vel) dt ∧
    ((bp.applyGravity gx gy dt).move dt).vx = bp.vx + gx * dt ∧
    ((bp.applyGravity gx gy dt).move dt).x = bp.x + (bp.vx + gx * dt) * dt :=
  ⟨rfl, rfl, rfl, rfl⟩

/-- Witness for C2 at the spec's scenario: zero initial velocity, gravity
(0, −9.81), dt = 1; the step ends with velocity (0, −9.81) and the position
displaced by the updated velocity. -/
theorem C2_witness :
    (0 : ℚ) < 1 ∧
    (((⟨1/2, 1, ⟨2, 3⟩, ⟨0, 0⟩⟩ : Ball ℚ).simulate 1 ⟨0, -981/100⟩).vel
        = Vector2.add ⟨0, 0⟩ ⟨0, -981/100⟩ 1 ∧
      ((⟨1/2, 1, ⟨2, 3⟩, ⟨0, 0⟩⟩ : Ball ℚ).simulate 1 ⟨0, -981/100⟩).pos
        = Vector2.add ⟨2, 3⟩
            (((⟨1/2, 1, ⟨2, 3⟩, ⟨0, 0⟩⟩ : Ball ℚ).simulate 1 ⟨0, -981/100⟩).vel) 1 ∧
      (((⟨1/5, 0, 0, 0, 0⟩ : BallP ℚ).applyGravity 0 (-981/100) 1).move 1).vx
        = 0 + 0 * 1 ∧
      (((⟨1/5, 0, 0, 0, 0⟩ : BallP ℚ).applyGravity 0 (-981/100) 1).move 1).x
        = 0 + (0 + 0 * 1) * 1) ∧
    Vector2.add (⟨0, 0⟩ : Vector2 ℚ) ⟨0, -981/100⟩ 1 = ⟨0, -981/100⟩ :=
  ⟨by norm_num, C2_velocity_before_position _ _ _ (by norm_num) _ _ _,
    by simp [Vector2.add]⟩

/-- Claim C8 counterexample: Cue.startCharge called on an already-charging cue
is not ignored — it overwrites the recorded charge start timestamp. -/
theorem C8_counterexample :
    ((⟨0, ⟨1, 0⟩, none, true, 5, 0⟩ : Cue).startCharge 7).startChargeTime = 7 ∧
    ((⟨0, ⟨1, 0⟩, none, true, 5, 0⟩ : Cue).startCharge 7).startChargeTime ≠
      (⟨0, ⟨1, 0⟩, none, true, 5, 0⟩ : Cue).startChargeTime := by
  refine ⟨rfl, ?_⟩
  show (7 : ℝ) ≠ 5
  norm_num

/-- Claim C8 amended: the ignore-while-charging behavior lives in the caller,
Game.handleKeyDown, not in Cue.startCharge: a Space keydown while the cue is
charging leaves the cue completely unchanged, and a Space keydown from Idle
invokes startCharge, recording the timestamp and transitioning to Charging. -/
theorem C8_guarded_start :
    (∀ (code : String) (c : Cue) (now : ℝ), c.isCharging = true →
      Game.handleKeyDown code c now = c) ∧
    (∀ (c : Cue) (now : ℝ), c.isCharging = false →
      Game.handleKeyDown "Space" c now = c.startCharge now ∧
      (Game.handleKeyDown "Space" c now).isCharging = true ∧
      (Game.handleKeyDown "Space" c now).startChargeTime = now) := by
  constructor
  · intro code c now h
    simp [Game.handleKeyDown, h]
  · intro c now h
    simp [Game.handleKeyDown, h, Cue.startCharge]

/-- Witness for C8's amended theorem: a keydown on a concrete charging cue
changes nothing, and one on a concrete idle cue records the timestamp. -/
theorem C8_witness :
    (⟨0, ⟨1, 0⟩, none, true, 5, 0⟩ : Cue).isCharging = true ∧
    (⟨0, ⟨1, 0⟩, none, false, 0, 0⟩ : Cue).isCharging = false ∧
    Game.handleKeyDown "Space" ⟨0, ⟨1, 0⟩, none, true, 5, 0⟩ 9
      = (⟨0, ⟨1, 0⟩, none, true, 5, 0⟩ : Cue) ∧
    (Game.handleKeyDown "Space" ⟨0, ⟨1, 0⟩, none, false, 0, 0⟩ 9).startChargeTime
      = 9 :=
  ⟨rfl, rfl, C8_guarded_start.1 "Space" _ 9 rfl,
    (C8_guarded_start.2 _ 9 rfl).2.2⟩

/-- Claim C9: releasing the cue while charging resets power to 0, the charging
flag to false, the start time to 0 and the angle to undefined, but leaves the
draw-back offset (shift) unchanged at its last charged value. -/
theorem C9_release_preserves_shift (c : Cue) (ball : Ball ℝ)
    (h : c.isCharging = true) :
    ((c.release ball).1).shift = c.shift ∧
    ((c.release ball).1).power = 0 ∧
    ((c.release ball).1).isCharging = false ∧
    ((c.release ball).1).startChargeTime = 0 ∧
    ((c.release ball).1).angle = none := by
  simp [Cue.release, Cue.reset, h]

/-- Witness for C9 on a concrete charging cue with shift 12: release keeps
shift at 12 and clears the other charge state. -/
theorem C9_witness :
    (⟨50, ⟨1, 0⟩, some 30, true, 100, 12⟩ : Cue).isCharging = true ∧
    ((((⟨50, ⟨1, 0⟩, some 30, true, 100, 12⟩ : Cue).release
        ⟨1, 1, ⟨0, 0⟩, ⟨0, 0⟩⟩).1).shift
      = (⟨50, ⟨1, 0⟩, some 30, true, 100, 12⟩ : Cue).shift ∧
    ((((⟨50, ⟨1, 0⟩, some 30, true, 100, 12⟩ : Cue).release
        ⟨1, 1, ⟨0, 0⟩, ⟨0, 0⟩⟩).1).power = 0 ∧
      (((⟨50, ⟨1, 0⟩, some 30, true, 100, 12⟩ : Cue).release
        ⟨1, 1, ⟨0, 0⟩, ⟨0, 0⟩⟩).1).isCharging = false ∧
      (((⟨50, ⟨1, 0⟩, some 30, true, 100, 12⟩ : Cue).release
        ⟨1, 1, ⟨0, 0⟩, ⟨0, 0⟩⟩).1).startChargeTime = 0 ∧
      (((⟨50, ⟨1, 0⟩, some 30, true, 100, 12⟩ : Cue).release
        ⟨1, 1, ⟨0, 0⟩, ⟨0, 0⟩⟩).1).angle = none)) :=
  ⟨rfl, C9_release_preserves_shift _ _ rfl⟩

/-- Claim C10: the boundary resolvers negate the velocity component
conditioned only on position, not on direction of motion, at every wall: for
ch-03's Core.handleWallsCollision (ball fitting inside the bounds) each of
the four wall tests — left, right, bottom, top — negates the corresponding
velocity component even when it already points back into the world, and
likewise for the three wall tests (left, right, ground) of the unnamed
demo's Core.handleCollision (non-negative world width); in each case a body
placed beyond the wall while moving inward exits the resolve moving outward
again. -/
theorem C10_reflection_position_only (b : Ball ℚ) (ws : Vector2 ℚ)
    (bp : BallP ℚ) (simWidth : ℚ)
    (hfx : 2 * b.radius ≤ ws.x) (hfy : 2 * b.radius ≤ ws.y)
    (hsw : 0 ≤ simWidth) :
    (b.pos.x < b.radius →
      (Core.handleWallsCollision b ws).vel.x = -b.vel.x ∧
      (0 < b.vel.x → (Core.handleWallsCollision b ws).vel.x < 0)) ∧
    (ws.x - b.radius < b.pos.x →
      (Core.handleWallsCollision b ws).vel.x = -b.vel.x ∧
      (b.vel.x < 0 → 0 < (Core.handleWallsCollision b ws).vel.x)) ∧
    (b.pos.y < b.radius →
      (Core.handleWallsCollision b ws).vel.y = -b.vel.y ∧
      (0 < b.vel.y → (Core.handleWallsCollision b ws).vel.y < 0)) ∧
    (ws.y - b.radius < b.pos.y →
      (Core.handleWallsCollision b ws).vel.y = -b.vel.y ∧
      (b.vel.y < 0 → 0 < (Core.handleWallsCollision b ws).vel.y)) ∧
    (bp.x < 0 →
      (CoreP.handleCollision bp simWidth).vx = -bp.vx ∧
      (0 < bp.vx → (CoreP.handleCollision bp simWidth).vx < 0)) ∧
    (simWidth < bp.x →
      (CoreP.handleCollision bp simWidth).vx = -bp.vx ∧
      (bp.vx < 0 → 0 < (CoreP.handleCollision bp simWidth).vx)) ∧
    (bp.y < 0 →
      (CoreP.handleCollision bp simWidth).vy = -bp.vy ∧
      (0 < bp.vy → (CoreP.handleCollision bp simWidth).vy < 0)) := by
  refine ⟨fun h => ?_, fun h => ?_, fun h => ?_, fun h => ?_, fun h => ?_,
    fun h => ?_, fun h => ?_⟩
  · have key : (Core.handleWallsCollision b ws).vel.x = -b.vel.x := by
      simp only [Core.handleWallsCollision]
      split_ifs <;> (try simp_all) <;> linarith
    exact ⟨key, fun hv => by rw [key]; linarith⟩
  · have key : (Core.handleWallsCollision b ws).vel.x = -b.vel.x := by
      simp only [Core.handleWallsCollision]
      split_ifs <;> (try simp_all) <;> linarith
    exact ⟨key, fun hv => by rw [key]; linarith⟩
  · have key : (Core.handleWallsCollision b ws).vel.y = -b.vel.y := by
      simp only [Core.handleWallsCollision]
      split_ifs <;> (try simp_all) <;> linarith
    exact ⟨key, fun hv => by rw [key]; linarith⟩
  · have key : (Core.handleWallsCollision b ws).vel.y = -b.vel.y := by
      simp only [Core.handleWallsCollision]
      split_ifs <;> (try simp_all) <;> linarith
    exact ⟨key, fun hv => by rw [key]; linarith⟩
  · have key : (CoreP.handleCollision bp simWidth).vx = -bp.vx := by
      simp only [CoreP.handleCollision]
      split_ifs <;> (try simp_all) <;> linarith
    exact ⟨key, fun hv => by rw [key]; linarith⟩
  · have key : (CoreP.handleCollision bp simWidth).vx = -bp.vx := by
      simp only [CoreP.handleCollision]
      split_ifs <;> (try simp_all) <;> linarith
    exact ⟨key, fun hv => by rw [key]; linarith⟩
  · have key : (CoreP.handleCollision bp simWidth).vy = -bp.vy := by
      simp only [CoreP.handleCollision]
      split_ifs <;> (try simp_all) <;> linarith
    exact ⟨key, fun hv => by rw [key]; linarith⟩

/-- Witness for C10 exercising every wall: balls past the left, right,
bottom and top walls of a 10 × 10 world, each moving inward, exit ch-03's
resolver with the component negated (hence moving outward); the unnamed
demo's balls past its left wall, right wall (simWidth 8) and ground behave
the same. -/
theorem C10_witness :
    (2 * ((1 : ℚ)/2) ≤ 10 ∧ (0 : ℚ) ≤ 8 ∧ (1 : ℚ)/10 < 1/2 ∧
      (19 : ℚ)/2 < 99/10 ∧ (-1 : ℚ) < 0 ∧ (8 : ℚ) < 9) ∧
    ((Core.handleWallsCollision (⟨1/2, 1, ⟨1/10, 5⟩, ⟨3, 0⟩⟩ : Ball ℚ)
          ⟨10, 10⟩).vel.x = -(⟨1/2, 1, ⟨1/10, 5⟩, ⟨3, 0⟩⟩ : Ball ℚ).vel.x ∧
      (0 < (⟨1/2, 1, ⟨1/10, 5⟩, ⟨3, 0⟩⟩ : Ball ℚ).vel.x →
        (Core.handleWallsCollision (⟨1/2, 1, ⟨1/10, 5⟩, ⟨3, 0⟩⟩ : Ball ℚ)
          ⟨10, 10⟩).vel.x < 0)) ∧
    ((Core.handleWallsCollision (⟨1/2, 1, ⟨99/10, 5⟩, ⟨-3, 0⟩⟩ : Ball ℚ)
          ⟨10, 10⟩).vel.x = -(⟨1/2, 1, ⟨99/10, 5⟩, ⟨-3, 0⟩⟩ : Ball ℚ).vel.x ∧
      ((⟨1/2, 1, ⟨99/10, 5⟩, ⟨-3, 0⟩⟩ : Ball ℚ).vel.x < 0 →
        0 < (Core.handleWallsCollision (⟨1/2, 1, ⟨99/10, 5⟩, ⟨-3, 0⟩⟩ : Ball ℚ)
          ⟨10, 10⟩).vel.x)) ∧
    ((Core.handleWallsCollision (⟨1/2, 1, ⟨5, 1/10⟩, ⟨0, 3⟩⟩ : Ball ℚ)
          ⟨10, 10⟩).vel.y = -(⟨1/2, 1, ⟨5, 1/10⟩, ⟨0, 3⟩⟩ : Ball ℚ).vel.y ∧
      (0 < (⟨1/2, 1, ⟨5, 1/10⟩, ⟨0, 3⟩⟩ : Ball ℚ).vel.y →
        (Core.handleWallsCollision (⟨1/2, 1, ⟨5, 1/10⟩, ⟨0, 3⟩⟩ : Ball ℚ)
          ⟨10, 10⟩).vel.y < 0)) ∧
    ((Core.handleWallsCollision (⟨1/2, 1, ⟨5, 99/10⟩, ⟨0, -3⟩⟩ : Ball ℚ)
          ⟨10, 10⟩).vel.y = -(⟨1/2, 1, ⟨5, 99/10⟩, ⟨0, -3⟩⟩ : Ball ℚ).vel.y ∧
      ((⟨1/2, 1, ⟨5, 99/10⟩, ⟨0, -3⟩⟩ : Ball ℚ).vel.y < 0 →
        0 < (Core.handleWallsCollision (⟨1/2, 1, ⟨5, 99/10⟩, ⟨0, -3⟩⟩ : Ball ℚ)
          ⟨10, 10⟩).vel.y)) ∧
    ((CoreP.handleCollision (⟨1/5, -1, 2, 3, 0⟩ : BallP ℚ) 8).vx
        = -(⟨1/5, -1, 2, 3, 0⟩ : BallP ℚ).vx ∧
      (0 < (⟨1/5, -1, 2, 3, 0⟩ : BallP ℚ).vx →
        (CoreP.handleCollision (⟨1/5, -1, 2, 3, 0⟩ : BallP ℚ) 8).vx < 0)) ∧
    ((CoreP.handleCollision (⟨1/5, 9, 2, -3, 0⟩ : BallP ℚ) 8).vx
        = -(⟨1/5, 9, 2, -3, 0⟩ : BallP ℚ).vx ∧
      ((⟨1/5, 9, 2, -3, 0⟩ : BallP ℚ).vx < 0 →
        0 < (CoreP.handleCollision (⟨1/5, 9, 2, -3, 0⟩ : BallP ℚ) 8).vx)) ∧
    ((CoreP.handleCollision (⟨1/5, 4, -1, 0, 3⟩ : BallP ℚ) 8).vy
        = -(⟨1/5, 4, -1, 0, 3⟩ : BallP ℚ).vy ∧
      (0 < (⟨1/5, 4, -1, 0, 3⟩ : BallP ℚ).vy →
        (CoreP.handleCollision (⟨1/5, 4, -1, 0, 3⟩ : BallP ℚ) 8).vy < 0)) :=
  ⟨⟨by norm_num, by norm_num, by norm_num, by norm_num, by norm_num,
      by norm_num⟩,
    (C10_reflection_position_only ⟨1/2, 1, ⟨1/10, 5⟩, ⟨3, 0⟩⟩ ⟨10, 10⟩
      ⟨1/5, -1, 2, 3, 0⟩ 8 (by norm_num) (by norm_num) (by norm_num)).1
      (by norm_num),
    (C10_reflection_position_only ⟨1/2, 1, ⟨99/10, 5⟩, ⟨-3, 0⟩⟩ ⟨10, 10⟩
      ⟨1/5, 9, 2, -3, 0⟩ 8 (by norm_num) (by norm_num) (by norm_num)).2.1
      (by norm_num),
    (C10_reflection_position_only ⟨1/2, 1, ⟨5, 1/10⟩, ⟨0, 3⟩⟩ ⟨10, 10⟩
      ⟨1/5, 4, -1, 0, 3⟩ 8 (by norm_num) (by norm_num) (by norm_num)).2.2.1
      (by norm_num),
    (C10_reflection_position_only ⟨1/2, 1, ⟨5, 99/10⟩, ⟨0, -3⟩⟩ ⟨10, 10⟩
      ⟨1/5, -1, 2, 3, 0⟩ 8 (by norm_num) (by norm_num) (by norm_num)).2.2.2.1
      (by norm_num),
    (C10_reflection_position_only ⟨1/2, 1, ⟨1/10, 5⟩, ⟨3, 0⟩⟩ ⟨10, 10⟩
      ⟨1/5, -1, 2, 3, 0⟩ 8 (by norm_num) (by norm_num)
      (by norm_num)).2.2.2.2.1 (by norm_num),
    (C10_reflection_position_only ⟨1/2, 1, ⟨99/10, 5⟩, ⟨-3, 0⟩⟩ ⟨10, 10⟩
      ⟨1/5, 9, 2, -3, 0⟩ 8 (by norm_num) (by norm_num)
      (by norm_num)).2.2.2.2.2.1 (by norm_num),
    (C10_reflection_position_only ⟨1/2, 1, ⟨5, 1/10⟩, ⟨0, 3⟩⟩ ⟨10, 10⟩
      ⟨1/5, 4, -1, 0, 3⟩ 8 (by norm_num) (by norm_num)
      (by norm_num)).2.2.2.2.2.2 (by norm_num)⟩

/-- Claim C4 counterexample: the cited boundary resolver
World.handleWallCollision (src/ch-03-practice/index.js) clamps the body's
CENTER to the wall with no radius inset: at the claim's own input — position
(−0.1, 5), radius 0.5, world width 10 — it leaves position.x = 0, not 0.5. -/
theorem C4_counterexample :
    (World.handleWallCollision (⟨1/2, 1, ⟨-1/10, 5⟩, ⟨-2, 3⟩⟩ : Ball ℚ)
        ⟨10, 10⟩).pos.x = 0 ∧
    (World.handleWallCollision (⟨1/2, 1, ⟨-1/10, 5⟩, ⟨-2, 3⟩⟩ : Ball ℚ)
        ⟨10, 10⟩).pos.x ≠ 1/2 := by
  constructor <;> norm_num [World.handleWallCollision]

/-- Claim C4 amended: ch-03's Core.handleWallsCollision behaves as claimed
(for a ball fitting inside the bounds): whenever the body's edge crosses a
wall, the position is clamped exactly a radius inset from that wall and the
corresponding velocity component is negated (this variant applies no
restitution factor, i.e. restitution 1); the ch-03-practice/index.js variant
World.handleWallCollision instead clamps the center with no inset. -/
theorem C4_wall_clamp_inset (b : Ball ℚ) (ws : Vector2 ℚ)
    (hfx : 2 * b.radius ≤ ws.x) (hfy : 2 * b.radius ≤ ws.y) :
    (b.pos.x < b.radius →
      (Core.handleWallsCollision b ws).pos.x = b.radius ∧
      (Core.handleWallsCollision b ws).vel.x = -b.vel.x) ∧
    (ws.x - b.radius < b.pos.x →
      (Core.handleWallsCollision b ws).pos.x = ws.x - b.radius ∧
      (Core.handleWallsCollision b ws).vel.x = -b.vel.x) ∧
    (b.pos.y < b.radius →
      (Core.handleWallsCollision b ws).pos.y = b.radius ∧
      (Core.handleWallsCollision b ws).vel.y = -b.vel.y) ∧
    (ws.y - b.radius < b.pos.y →
      (Core.handleWallsCollision b ws).pos.y = ws.y - b.radius ∧
      (Core.handleWallsCollision b ws).vel.y = -b.vel.y) := by
  refine ⟨fun h => ?_, fun h => ?_, fun h => ?_, fun h => ?_⟩ <;>
    (simp only [Core.handleWallsCollision]; split_ifs <;> (try simp_all) <;>
      first
        | (constructor <;> linarith)
        | linarith)

/-- Witness for C4's amended theorem at the spec's concrete input: a ball at
(−0.1, 5) with radius 0.5 in a 10 × 10 world ends at position.x = 0.5 with
vel.x sign flipped. -/
theorem C4_witness :
    (2 * ((1 : ℚ)/2) ≤ 10) ∧ ((-1 : ℚ)/10 < 1/2) ∧
    (Core.handleWallsCollision (⟨1/2, 1, ⟨-1/10, 5⟩, ⟨-2, 3⟩⟩ : Ball ℚ)
        ⟨10, 10⟩).pos.x = 1/2 ∧
    (Core.handleWallsCollision (⟨1/2, 1, ⟨-1/10, 5⟩, ⟨-2, 3⟩⟩ : Ball ℚ)
        ⟨10, 10⟩).vel.x = 2 := by
  refine ⟨by norm_num, by norm_num, ?_, ?_⟩
  · exact ((C4_wall_clamp_inset ⟨1/2, 1, ⟨-1/10, 5⟩, ⟨-2, 3⟩⟩ ⟨10, 10⟩
      (by norm_num) (by norm_num)).1 (by norm_num)).1
  · have h := ((C4_wall_clamp_inset ⟨1/2, 1, ⟨-1/10, 5⟩, ⟨-2, 3⟩⟩ ⟨10, 10⟩
      (by norm_num) (by norm_num)).1 (by norm_num)).2
    rw [h]
    norm_num

/-- Claim C1: in the mutating case of the pairwise resolver (overlapping,
center distance d nonzero), with restitution 1, total momentum along the
contact normal is conserved exactly over rational arithmetic: the sum of
mass times post-collision normal speed equals the sum of mass times
pre-collision normal speed (d is the exact center distance, characterized by
0 < d and d·d = dir·dir). -/
theorem C1_normal_momentum_conserved (b1 b2 : Ball ℚ) (d : ℚ)
    (hm1 : 0 < b1.mass) (hm2 : 0 < b2.mass) (hd0 : 0 < d)
    (hdle : d ≤ b1.radius + b2.radius)
    (hdd : d * d = (Vector2.subtractVectors b2.pos b1.pos).dot
      (Vector2.subtractVectors b2.pos b1.pos)) :
    b1.mass * ((Core.handleBallsCollision b1 b2 1 d).1.vel.dot
        (Core.normalDir b1 b2 d)) +
      b2.mass * ((Core.handleBallsCollision b1 b2 1 d).2.vel.dot
        (Core.normalDir b1 b2 d)) =
    b1.mass * (b1.vel.dot (Core.normalDir b1 b2 d)) +
      b2.mass * (b2.vel.dot (Core.normalDir b1 b2 d)) := by
  have hgd : ¬(d = 0 ∨ d > b1.radius + b2.radius) := by
    push_neg
    exact ⟨hd0.ne', hdle⟩
  obtain ⟨r1, m1, p1, w1⟩ := b1
  obtain ⟨r2, m2, p2, w2⟩ := b2
  obtain ⟨p1x, p1y⟩ := p1
  obtain ⟨p2x, p2y⟩ := p2
  obtain ⟨w1x, w1y⟩ := w1
  obtain ⟨w2x, w2y⟩ := w2
  simp only [Core.handleBallsCollision, Core.normalDir, if_neg hgd,
    Vector2.add, Vector2.dot, Vector2.scale, Vector2.subtractVectors] at *
  have hM : m1 + m2 ≠ 0 := ne_of_gt (by linarith)
  field_simp
  ring

/-- Witness for C1 on concrete overlapping balls: radii 3/5, masses 1 and 2,
centers (0,0) and (1,0) (distance d = 1 < 6/5), velocities (1,0) and (0,0),
restitution 1. -/
theorem C1_witness :
    ((0 : ℚ) < (⟨3/5, 1, ⟨0, 0⟩, ⟨1, 0⟩⟩ : Ball ℚ).mass ∧
      (0 : ℚ) < (⟨3/5, 2, ⟨1, 0⟩, ⟨0, 0⟩⟩ : Ball ℚ).mass ∧
      (0 : ℚ) < 1 ∧
      (1 : ℚ) ≤ (⟨3/5, 1, ⟨0, 0⟩, ⟨1, 0⟩⟩ : Ball ℚ).radius
        + (⟨3/5, 2, ⟨1, 0⟩, ⟨0, 0⟩⟩ : Ball ℚ).radius ∧
      (1 : ℚ) * 1 =
        (Vector2.subtractVectors (⟨3/5, 2, ⟨1, 0⟩, ⟨0, 0⟩⟩ : Ball ℚ).pos
            (⟨3/5, 1, ⟨0, 0⟩, ⟨1, 0⟩⟩ : Ball ℚ).pos).dot
          (Vector2.subtractVectors (⟨3/5, 2, ⟨1, 0⟩, ⟨0, 0⟩⟩ : Ball ℚ).pos
            (⟨3/5, 1, ⟨0, 0⟩, ⟨1, 0⟩⟩ : Ball ℚ).pos)) ∧
    (⟨3/5, 1, ⟨0, 0⟩, ⟨1, 0⟩⟩ : Ball ℚ).mass *
        ((Core.handleBallsCollision (⟨3/5, 1, ⟨0, 0⟩, ⟨1, 0⟩⟩ : Ball ℚ)
            (⟨3/5, 2, ⟨1, 0⟩, ⟨0, 0⟩⟩ : Ball ℚ) 1 1).1.vel.dot
          (Core.normalDir (⟨3/5, 1, ⟨0, 0⟩, ⟨1, 0⟩⟩ : Ball ℚ)
            (⟨3/5, 2, ⟨1, 0⟩, ⟨0, 0⟩⟩ : Ball ℚ) 1)) +
      (⟨3/5, 2, ⟨1, 0⟩, ⟨0, 0⟩⟩ : Ball ℚ).mass *
        ((Core.handleBallsCollision (⟨3/5, 1, ⟨0, 0⟩, ⟨1, 0⟩⟩ : Ball ℚ)
            (⟨3/5, 2, ⟨1, 0⟩, ⟨0, 0⟩⟩ : Ball ℚ) 1 1).2.vel.dot
          (Core.normalDir (⟨3/5, 1, ⟨0, 0⟩, ⟨1, 0⟩⟩ : Ball ℚ)
            (⟨3/5, 2, ⟨1, 0⟩, ⟨0, 0⟩⟩ : Ball ℚ) 1)) =
    (⟨3/5, 1, ⟨0, 0⟩, ⟨1, 0⟩⟩ : Ball ℚ).mass *
        ((⟨3/5, 1, ⟨0, 0⟩, ⟨1, 0⟩⟩ : Ball ℚ).vel.dot
          (Core.normalDir (⟨3/5, 1, ⟨0, 0⟩, ⟨1, 0⟩⟩ : Ball ℚ)
            (⟨3/5, 2, ⟨1, 0⟩, ⟨0, 0⟩⟩ : Ball ℚ) 1)) +
      (⟨3/5, 2, ⟨1, 0⟩, ⟨0, 0⟩⟩ : Ball ℚ).mass *
        ((⟨3/5, 2, ⟨1, 0⟩, ⟨0, 0⟩⟩ : Ball ℚ).vel.dot
          (Core.normalDir (⟨3/5, 1, ⟨0, 0⟩, ⟨1, 0⟩⟩ : Ball ℚ)
            (⟨3/5, 2, ⟨1, 0⟩, ⟨0, 0⟩⟩ : Ball ℚ) 1)) :=
  ⟨⟨by norm_num, by norm_num, by norm_num, by norm_num,
      by norm_num [Vector2.dot, Vector2.subtractVectors]⟩,
    C1_normal_momentum_conserved _ _ _ (by norm_num) (by norm_num)
      (by norm_num) (by norm_num)
      (by norm_num [Vector2.dot, Vector2.subtractVectors])⟩

/-- Claim C6: in the mutating case of the pairwise resolver, the positional
correction moves ball1 by −corr and ball2 by +corr along the unit
center-to-center direction with corr = (r1 + r2 − d)/2 — a formula with no
mass in it, splitting the overlap equally regardless of mass — and afterwards
the squared center distance is exactly (r1 + r2)², i.e. the distance is
exactly r1 + r2 over exact arithmetic. -/
theorem C6_positional_correction (b1 b2 : Ball ℚ) (e d : ℚ)
    (hd0 : 0 < d) (hdle : d ≤ b1.radius + b2.radius)
    (hdd : d * d = (Vector2.subtractVectors b2.pos b1.pos).dot
      (Vector2.subtractVectors b2.pos b1.pos)) :
    (Core.handleBallsCollision b1 b2 e d).1.pos
        = b1.pos.add (Core.normalDir b1 b2 d)
            (-((b1.radius + b2.radius - d) / 2)) ∧
    (Core.handleBallsCollision b1 b2 e d).2.pos
        = b2.pos.add (Core.normalDir b1 b2 d)
            ((b1.radius + b2.radius - d) / 2) ∧
    0 < b1.radius + b2.radius ∧
    (Vector2.subtractVectors (Core.handleBallsCollision b1 b2 e d).2.pos
          (Core.handleBallsCollision b1 b2 e d).1.pos).dot
        (Vector2.subtractVectors (Core.handleBallsCollision b1 b2 e d).2.pos
          (Core.handleBallsCollision b1 b2 e d).1.pos)
      = (b1.radius + b2.radius) * (b1.radius + b2.radius) := by
  have hgd : ¬(d = 0 ∨ d > b1.radius + b2.radius) := by
    push_neg
    exact ⟨hd0.ne', hdle⟩
  have hsub : Vector2.subtractVectors
        (Core.handleBallsCollision b1 b2 e d).2.pos
        (Core.handleBallsCollision b1 b2 e d).1.pos
      = Vector2.scale (Vector2.subtractVectors b2.pos b1.pos)
          ((b1.radius + b2.radius) / d) := by
    simp only [Core.handleBallsCollision, Core.normalDir, if_neg hgd,
      Vector2.add, Vector2.subtractVectors, Vector2.scale, Vector2.mk.injEq]
    constructor <;> field_simp <;> ring
  refine ⟨?_, ?_, by linarith, ?_⟩
  · simp only [Core.handleBallsCollision, Core.normalDir, if_neg hgd]
  · simp only [Core.handleBallsCollision, Core.normalDir, if_neg hgd]
  · rw [hsub]
    simp only [Vector2.dot, Vector2.scale, Vector2.subtractVectors] at hdd ⊢
    field_simp
    linear_combination (-((b1.radius + b2.radius) * (b1.radius + b2.radius))) * hdd

/-- Witness for C6 on concrete overlapping balls: radii 3/5, masses 1 and 2,
centers (0,0) and (1,0), d = 1, restitution 1/2. -/
theorem C6_witness :
    ((0 : ℚ) < 1 ∧
      (1 : ℚ) ≤ (⟨3/5, 1, ⟨0, 0⟩, ⟨1, 0⟩⟩ : Ball ℚ).radius
        + (⟨3/5, 2, ⟨1, 0⟩, ⟨0, 0⟩⟩ : Ball ℚ).radius ∧
      (1 : ℚ) * 1 =
        (Vector2.subtractVectors (⟨3/5, 2, ⟨1, 0⟩, ⟨0, 0⟩⟩ : Ball ℚ).pos
            (⟨3/5, 1, ⟨0, 0⟩, ⟨1, 0⟩⟩ : Ball ℚ).pos).dot
          (Vector2.subtractVectors (⟨3/5, 2, ⟨1, 0⟩, ⟨0, 0⟩⟩ : Ball ℚ).pos
            (⟨3/5, 1, ⟨0, 0⟩, ⟨1, 0⟩⟩ : Ball ℚ).pos)) ∧
    ((Core.handleBallsCollision (⟨3/5, 1, ⟨0, 0⟩, ⟨1, 0⟩⟩ : Ball ℚ)
          (⟨3/5, 2, ⟨1, 0⟩, ⟨0, 0⟩⟩ : Ball ℚ) (1/2) 1).1.pos
        = Vector2.add (⟨3/5, 1, ⟨0, 0⟩, ⟨1, 0⟩⟩ : Ball ℚ).pos
            (Core.normalDir (⟨3/5, 1, ⟨0, 0⟩, ⟨1, 0⟩⟩ : Ball ℚ)
              (⟨3/5, 2, ⟨1, 0⟩, ⟨0, 0⟩⟩ : Ball ℚ) 1)
            (-(((⟨3/5, 1, ⟨0, 0⟩, ⟨1, 0⟩⟩ : Ball ℚ).radius
                + (⟨3/5, 2, ⟨1, 0⟩, ⟨0, 0⟩⟩ : Ball ℚ).radius - 1) / 2)) ∧
      (Core.handleBallsCollision (⟨3/5, 1, ⟨0, 0⟩, ⟨1, 0⟩⟩ : Ball ℚ)
          (⟨3/5, 2, ⟨1, 0⟩, ⟨0, 0⟩⟩ : Ball ℚ) (1/2) 1).2.pos
        = Vector2.add (⟨3/5, 2, ⟨1, 0⟩, ⟨0, 0⟩⟩ : Ball ℚ).pos
            (Core.normalDir (⟨3/5, 1, ⟨0, 0⟩, ⟨1, 0⟩⟩ : Ball ℚ)
              (⟨3/5, 2, ⟨1, 0⟩, ⟨0, 0⟩⟩ : Ball ℚ) 1)
            (((⟨3/5, 1, ⟨0, 0⟩, ⟨1, 0⟩⟩ : Ball ℚ).radius
                + (⟨3/5, 2, ⟨1, 0⟩, ⟨0, 0⟩⟩ : Ball ℚ).radius - 1) / 2) ∧
      0 < (⟨3/5, 1, ⟨0, 0⟩, ⟨1, 0⟩⟩ : Ball ℚ).radius
        + (⟨3/5, 2, ⟨1, 0⟩, ⟨0, 0⟩⟩ : Ball ℚ).radius ∧
      (Vector2.subtractVectors
            (Core.handleBallsCollision (⟨3/5, 1, ⟨0, 0⟩, ⟨1, 0⟩⟩ : Ball ℚ)
              (⟨3/5, 2, ⟨1, 0⟩, ⟨0, 0⟩⟩ : Ball ℚ) (1/2) 1).2.pos
            (Core.handleBallsCollision (⟨3/5, 1, ⟨0, 0⟩, ⟨1, 0⟩⟩ : Ball ℚ)
              (⟨3/5, 2, ⟨1, 0⟩, ⟨0, 0⟩⟩ : Ball ℚ) (1/2) 1).1.pos).dot
          (Vector2.subtractVectors
            (Core.handleBallsCollision (⟨3/5, 1, ⟨0, 0⟩, ⟨1, 0⟩⟩ : Ball ℚ)
              (⟨3/5, 2, ⟨1, 0⟩, ⟨0, 0⟩⟩ : Ball ℚ) (1/2) 1).2.pos
            (Core.handleBallsCollision (⟨3/5, 1, ⟨0, 0⟩, ⟨1, 0⟩⟩ : Ball ℚ)
              (⟨3/5, 2, ⟨1, 0⟩, ⟨0, 0⟩⟩ : Ball ℚ) (1/2) 1).1.pos)
        = ((⟨3/5, 1, ⟨0, 0⟩, ⟨1, 0⟩⟩ : Ball ℚ).radius
            + (⟨3/5, 2, ⟨1, 0⟩, ⟨0, 0⟩⟩ : Ball ℚ).radius)
          * ((⟨3/5, 1, ⟨0, 0⟩, ⟨1, 0⟩⟩ : Ball ℚ).radius
            + (⟨3/5, 2, ⟨1, 0⟩, ⟨0, 0⟩⟩ : Ball ℚ).radius)) :=
  ⟨⟨by norm_num, by norm_num,
      by norm_num [Vector2.dot, Vector2.subtractVectors]⟩,
    C6_positional_correction _ _ _ _ (by norm_num) (by norm_num)
      (by norm_num [Vector2.dot, Vector2.subtractVectors])⟩

/-- Dot product of an accumulated vector with the accumulant: bilinearity of
Vector2.dot over Vector2.add. -/
theorem Vector2.add_dot (v w : Vector2 K) (t : K) :
    (v.add w t).dot w = v.dot w + t * (w.dot w) := by
  simp only [Vector2.add, Vector2.dot]
  ring

/-- The 1-D restitution formulas of Core.handleBallsCollision never increase
kinetic energy: the drop equals (1/2)·(m1·m2/(m1+m2))·(1−e²)·(v1−v2)² ≥ 0. -/
theorem collisionEnergyDrop (m1 m2 v1 v2 e : ℚ) (hm1 : 0 < m1) (hm2 : 0 < m2)
    (he0 : 0 ≤ e) (he1 : e ≤ 1) :
    (1/2) * m1 * ((m1 * v1 + m2 * v2 - m2 * (v1 - v2) * e) / (m1 + m2))^2 +
      (1/2) * m2 * ((m1 * v1 + m2 * v2 - m1 * (v2 - v1) * e) / (m1 + m2))^2 ≤
    (1/2) * m1 * v1^2 + (1/2) * m2 * v2^2 := by
  have hM : (0 : ℚ) < m1 + m2 := by linarith
  have key : (1/2) * m1 * v1^2 + (1/2) * m2 * v2^2
      - ((1/2) * m1 * ((m1 * v1 + m2 * v2 - m2 * (v1 - v2) * e) / (m1 + m2))^2 +
        (1/2) * m2 * ((m1 * v1 + m2 * v2 - m1 * (v2 - v1) * e) / (m1 + m2))^2)
      = (1/2) * (m1 * m2 / (m1 + m2)) * (1 - e^2) * (v1 - v2)^2 := by
    field_simp
    ring
  have he2 : (0 : ℚ) ≤ 1 - e^2 := by nlinarith
  have h1 : (0 : ℚ) ≤ (1/2) * (m1 * m2 / (m1 + m2)) * (1 - e^2) * (v1 - v2)^2 :=
    mul_nonneg (mul_nonneg (mul_nonneg (by norm_num)
      (div_nonneg (mul_nonneg hm1.le hm2.le) hM.le)) he2) (sq_nonneg (v1 - v2))
  linarith

/-- Claim C7: for every colliding pair handled by the resolver and every
restitution in [0,1], the kinetic energy of the normal velocity components
after the velocity update is at most the pre-collision normal kinetic
energy. -/
theorem C7_energy_nonincrease (b1 b2 : Ball ℚ) (e d : ℚ)
    (hm1 : 0 < b1.mass) (hm2 : 0 < b2.mass) (he0 : 0 ≤ e) (he1 : e ≤ 1)
    (hd0 : 0 < d) (hdle : d ≤ b1.radius + b2.radius)
    (hdd : d * d = (Vector2.subtractVectors b2.pos b1.pos).dot
      (Vector2.subtractVectors b2.pos b1.pos)) :
    (1/2) * b1.mass * ((Core.handleBallsCollision b1 b2 e d).1.vel.dot
        (Core.normalDir b1 b2 d))^2 +
      (1/2) * b2.mass * ((Core.handleBallsCollision b1 b2 e d).2.vel.dot
        (Core.normalDir b1 b2 d))^2 ≤
    (1/2) * b1.mass * (b1.vel.dot (Core.normalDir b1 b2 d))^2 +
      (1/2) * b2.mass * (b2.vel.dot (Core.normalDir b1 b2 d))^2 := by
  have hgd : ¬(d = 0 ∨ d > b1.radius + b2.radius) := by
    push_neg
    exact ⟨hd0.ne', hdle⟩
  have hS : (Core.normalDir b1 b2 d).dot (Core.normalDir b1 b2 d) = 1 := by
    simp only [Core.normalDir, Vector2.dot, Vector2.scale,
      Vector2.subtractVectors] at hdd ⊢
    field_simp
    linear_combination -hdd
  have h1 : (Core.handleBallsCollision b1 b2 e d).1.vel
      = b1.vel.add (Core.normalDir b1 b2 d)
          ((b1.mass * (b1.vel.dot (Core.normalDir b1 b2 d))
              + b2.mass * (b2.vel.dot (Core.normalDir b1 b2 d))
              - b2.mass * ((b1.vel.dot (Core.normalDir b1 b2 d))
                - (b2.vel.dot (Core.normalDir b1 b2 d))) * e)
            / (b1.mass + b2.mass)
            - b1.vel.dot (Core.normalDir b1 b2 d)) := by
    simp only [Core.handleBallsCollision, Core.normalDir, if_neg hgd]
  have h2 : (Core.handleBallsCollision b1 b2 e d).2.vel
      = b2.vel.add (Core.normalDir b1 b2 d)
          ((b1.mass * (b1.vel.dot (Core.normalDir b1 b2 d))
              + b2.mass * (b2.vel.dot (Core.normalDir b1 b2 d))
              - b1.mass * ((b2.vel.dot (Core.normalDir b1 b2 d))
                - (b1.vel.dot (Core.normalDir b1 b2 d))) * e)
            / (b1.mass + b2.mass)
            - b2.vel.dot (Core.normalDir b1 b2 d)) := by
    simp only [Core.handleBallsCollision, Core.normalDir, if_neg hgd]
  rw [h1, h2, Vector2.add_dot, Vector2.add_dot, hS, mul_one]
  have hkey := collisionEnergyDrop b1.mass b2.mass
    (b1.vel.dot (Core.normalDir b1 b2 d))
    (b2.vel.dot (Core.normalDir b1 b2 d)) e hm1 hm2 he0 he1
  ring_nf at hkey ⊢
  linarith

/-- Witness for C7 on concrete overlapping balls: radii 3/5, masses 1 and 2,
centers (0,0) and (1,0), d = 1, restitution 1/2. -/
theorem C7_witness :
    ((0 : ℚ) < (⟨3/5, 1, ⟨0, 0⟩, ⟨1, 0⟩⟩ : Ball ℚ).mass ∧
      (0 : ℚ) < (⟨3/5, 2, ⟨1, 0⟩, ⟨0, 0⟩⟩ : Ball ℚ).mass ∧
      (0 : ℚ) ≤ 1/2 ∧ (1 : ℚ)/2 ≤ 1 ∧ (0 : ℚ) < 1 ∧
      (1 : ℚ) ≤ (⟨3/5, 1, ⟨0, 0⟩, ⟨1, 0⟩⟩ : Ball ℚ).radius
        + (⟨3/5, 2, ⟨1, 0⟩, ⟨0, 0⟩⟩ : Ball ℚ).radius ∧
      (1 : ℚ) * 1 =
        (Vector2.subtractVectors (⟨3/5, 2, ⟨1, 0⟩, ⟨0, 0⟩⟩ : Ball ℚ).pos
            (⟨3/5, 1, ⟨0, 0⟩, ⟨1, 0⟩⟩ : Ball ℚ).pos).dot
          (Vector2.subtractVectors (⟨3/5, 2, ⟨1, 0⟩, ⟨0, 0⟩⟩ : Ball ℚ).pos
            (⟨3/5, 1, ⟨0, 0⟩, ⟨1, 0⟩⟩ : Ball ℚ).pos)) ∧
    (1/2) * (⟨3/5, 1, ⟨0, 0⟩, ⟨1, 0⟩⟩ : Ball ℚ).mass *
        ((Core.handleBallsCollision (⟨3/5, 1, ⟨0, 0⟩, ⟨1, 0⟩⟩ : Ball ℚ)
            (⟨3/5, 2, ⟨1, 0⟩, ⟨0, 0⟩⟩ : Ball ℚ) (1/2) 1).1.vel.dot
          (Core.normalDir (⟨3/5, 1, ⟨0, 0⟩, ⟨1, 0⟩⟩ : Ball ℚ)
            (⟨3/5, 2, ⟨1, 0⟩, ⟨0, 0⟩⟩ : Ball ℚ) 1))^2 +
      (1/2) * (⟨3/5, 2, ⟨1, 0⟩, ⟨0, 0⟩⟩ : Ball ℚ).mass *
        ((Core.handleBallsCollision (⟨3/5, 1, ⟨0, 0⟩, ⟨1, 0⟩⟩ : Ball ℚ)
            (⟨3/5, 2, ⟨1, 0⟩, ⟨0, 0⟩⟩ : Ball ℚ) (1/2) 1).2.vel.dot
          (Core.normalDir (⟨3/5, 1, ⟨0, 0⟩, ⟨1, 0⟩⟩ : Ball ℚ)
            (⟨3/5, 2, ⟨1, 0⟩, ⟨0, 0⟩⟩ : Ball ℚ) 1))^2 ≤
    (1/2) * (⟨3/5, 1, ⟨0, 0⟩, ⟨1, 0⟩⟩ : Ball ℚ).mass *
        ((⟨3/5, 1, ⟨0, 0⟩, ⟨1, 0⟩⟩ : Ball ℚ).vel.dot
          (Core.normalDir (⟨3/5, 1, ⟨0, 0⟩, ⟨1, 0⟩⟩ : Ball ℚ)
            (⟨3/5, 2, ⟨1, 0⟩, ⟨0, 0⟩⟩ : Ball ℚ) 1))^2 +
      (1/2) * (⟨3/5, 2, ⟨1, 0⟩, ⟨0, 0⟩⟩ : Ball ℚ).mass *
        ((⟨3/5, 2, ⟨1, 0⟩, ⟨0, 0⟩⟩ : Ball ℚ).vel.dot
          (Core.normalDir (⟨3/5, 1, ⟨0, 0⟩, ⟨1, 0⟩⟩ : Ball ℚ)
            (⟨3/5, 2, ⟨1, 0⟩, ⟨0, 0⟩⟩ : Ball ℚ) 1))^2 :=
  ⟨⟨by norm_num, by norm_num, by norm_num, by norm_num, by norm_num,
      by norm_num, by norm_num [Vector2.dot, Vector2.subtractVectors]⟩,
    C7_energy_nonincrease _ _ _ _ (by norm_num) (by norm_num) (by norm_num)
      (by norm_num) (by norm_num) (by norm_num)
      (by norm_num [Vector2.dot, Vector2.subtractVectors])⟩

/-- Claim C5 counterexample: at the spec's own input — two balls of radius
1/√π (mass π·r² = 1) at (0,0) and (1.5,0) — the center distance 1.5 exceeds
the radius sum 2/√π ≈ 1.128, so the resolver's no-collision guard fires and
returns both balls unchanged: the velocities stay (1,0) and (0,0) and do NOT
swap. -/
theorem C5_counterexample :
    Real.pi * ((Real.sqrt Real.pi)⁻¹ * (Real.sqrt Real.pi)⁻¹) = 1 ∧
    (Vector2.subtractVectors
          (⟨(Real.sqrt Real.pi)⁻¹, 1, ⟨3/2, 0⟩, ⟨0, 0⟩⟩ : Ball ℝ).pos
          (⟨(Real.sqrt Real.pi)⁻¹, 1, ⟨0, 0⟩, ⟨1, 0⟩⟩ : Ball ℝ).pos).dot
        (Vector2.subtractVectors
          (⟨(Real.sqrt Real.pi)⁻¹, 1, ⟨3/2, 0⟩, ⟨0, 0⟩⟩ : Ball ℝ).pos
          (⟨(Real.sqrt Real.pi)⁻¹, 1, ⟨0, 0⟩, ⟨1, 0⟩⟩ : Ball ℝ).pos)
      = (3/2) * (3/2) ∧
    Core.handleBallsCollision
        (⟨(Real.sqrt Real.pi)⁻¹, 1, ⟨0, 0⟩, ⟨1, 0⟩⟩ : Ball ℝ)
        (⟨(Real.sqrt Real.pi)⁻¹, 1, ⟨3/2, 0⟩, ⟨0, 0⟩⟩ : Ball ℝ) 1 (3/2)
      = (⟨(Real.sqrt Real.pi)⁻¹, 1, ⟨0, 0⟩, ⟨1, 0⟩⟩,
          ⟨(Real.sqrt Real.pi)⁻¹, 1, ⟨3/2, 0⟩, ⟨0, 0⟩⟩) ∧
    ¬((Core.handleBallsCollision
          (⟨(Real.sqrt Real.pi)⁻¹, 1, ⟨0, 0⟩, ⟨1, 0⟩⟩ : Ball ℝ)
          (⟨(Real.sqrt Real.pi)⁻¹, 1, ⟨3/2, 0⟩, ⟨0, 0⟩⟩ : Ball ℝ) 1
          (3/2)).1.vel = ⟨0, 0⟩ ∧
      (Core.handleBallsCollision
          (⟨(Real.sqrt Real.pi)⁻¹, 1, ⟨0, 0⟩, ⟨1, 0⟩⟩ : Ball ℝ)
          (⟨(Real.sqrt Real.pi)⁻¹, 1, ⟨3/2, 0⟩, ⟨0, 0⟩⟩ : Ball ℝ) 1
          (3/2)).2.vel = ⟨1, 0⟩) := by
  have hsq : Real.sqrt Real.pi * Real.sqrt Real.pi = Real.pi :=
    Real.mul_self_sqrt Real.pi_pos.le
  have h43 : (4/3 : ℝ) < Real.sqrt Real.pi := by
    rw [Real.lt_sqrt (by norm_num)]
    nlinarith [Real.pi_gt_three]
  have hrlt : (Real.sqrt Real.pi)⁻¹ < 3/4 := by
    calc (Real.sqrt Real.pi)⁻¹ < ((4 : ℝ)/3)⁻¹ :=
          inv_strictAnti₀ (by norm_num) h43
      _ ≤ 3/4 := by norm_num
  have hguard : (3/2 : ℝ) = 0 ∨
      (3/2 : ℝ) > (⟨(Real.sqrt Real.pi)⁻¹, 1, ⟨0, 0⟩, ⟨1, 0⟩⟩ : Ball ℝ).radius
        + (⟨(Real.sqrt Real.pi)⁻¹, 1, ⟨3/2, 0⟩, ⟨0, 0⟩⟩ : Ball ℝ).radius := by
    right
    show (3/2 : ℝ) > (Real.sqrt Real.pi)⁻¹ + (Real.sqrt Real.pi)⁻¹
    linarith
  have hres : Core.handleBallsCollision
      (⟨(Real.sqrt Real.pi)⁻¹, 1, ⟨0, 0⟩, ⟨1, 0⟩⟩ : Ball ℝ)
      (⟨(Real.sqrt Real.pi)⁻¹, 1, ⟨3/2, 0⟩, ⟨0, 0⟩⟩ : Ball ℝ) 1 (3/2)
      = (⟨(Real.sqrt Real.pi)⁻¹, 1, ⟨0, 0⟩, ⟨1, 0⟩⟩,
          ⟨(Real.sqrt Real.pi)⁻¹, 1, ⟨3/2, 0⟩, ⟨0, 0⟩⟩) := by
    simp only [Core.handleBallsCollision]
    rw [if_pos hguard]
  refine ⟨?_, ?_, hres, ?_⟩
  · rw [← mul_inv, hsq, mul_inv_cancel₀ Real.pi_ne_zero]
  · norm_num [Vector2.dot, Vector2.subtractVectors]
  · rw [hres]
    intro h
    have h1 := h.1
    simp only [Vector2.mk.injEq] at h1
    exact one_ne_zero h1.1

/-- Claim C5 amended: with the two unit-mass balls actually overlapping —
centers (0,0) and (1,0), distance 1 < 2/√π — one resolve call with
restitution 1 swaps the velocities (1,0) and (0,0), the elastic equal-mass
head-on collision of the spec; at the spec's original distance 1.5 the pair
is not colliding and is returned untouched. -/
theorem C5_velocity_swap_overlapping :
    Real.pi * ((Real.sqrt Real.pi)⁻¹ * (Real.sqrt Real.pi)⁻¹) = 1 ∧
    (Vector2.subtractVectors
          (⟨(Real.sqrt Real.pi)⁻¹, 1, ⟨1, 0⟩, ⟨0, 0⟩⟩ : Ball ℝ).pos
          (⟨(Real.sqrt Real.pi)⁻¹, 1, ⟨0, 0⟩, ⟨1, 0⟩⟩ : Ball ℝ).pos).dot
        (Vector2.subtractVectors
          (⟨(Real.sqrt Real.pi)⁻¹, 1, ⟨1, 0⟩, ⟨0, 0⟩⟩ : Ball ℝ).pos
          (⟨(Real.sqrt Real.pi)⁻¹, 1, ⟨0, 0⟩, ⟨1, 0⟩⟩ : Ball ℝ).pos)
      = 1 * 1 ∧
    (Core.handleBallsCollision
        (⟨(Real.sqrt Real.pi)⁻¹, 1, ⟨0, 0⟩, ⟨1, 0⟩⟩ : Ball ℝ)
        (⟨(Real.sqrt Real.pi)⁻¹, 1, ⟨1, 0⟩, ⟨0, 0⟩⟩ : Ball ℝ) 1 1).1.vel
      = ⟨0, 0⟩ ∧
    (Core.handleBallsCollision
        (⟨(Real.sqrt Real.pi)⁻¹, 1, ⟨0, 0⟩, ⟨1, 0⟩⟩ : Ball ℝ)
        (⟨(Real.sqrt Real.pi)⁻¹, 1, ⟨1, 0⟩, ⟨0, 0⟩⟩ : Ball ℝ) 1 1).2.vel
      = ⟨1, 0⟩ := by
  have hsq : Real.sqrt Real.pi * Real.sqrt Real.pi = Real.pi :=
    Real.mul_self_sqrt Real.pi_pos.le
  have hs2 : Real.sqrt Real.pi < 2 := by
    rw [Real.sqrt_lt' (by norm_num)]
    nlinarith [Real.pi_lt_four]
  have hspos : 0 < Real.sqrt Real.pi := Real.sqrt_pos.2 Real.pi_pos
  have hrgt : (1/2 : ℝ) < (Real.sqrt Real.pi)⁻¹ := by
    calc (1/2 : ℝ) = (2 : ℝ)⁻¹ := by norm_num
      _ < (Real.sqrt Real.pi)⁻¹ := inv_strictAnti₀ hspos hs2
  have hguard : ¬((1 : ℝ) = 0 ∨
      (1 : ℝ) > (⟨(Real.sqrt Real.pi)⁻¹, 1, ⟨0, 0⟩, ⟨1, 0⟩⟩ : Ball ℝ).radius
        + (⟨(Real.sqrt Real.pi)⁻¹, 1, ⟨1, 0⟩, ⟨0, 0⟩⟩ : Ball ℝ).radius) := by
    push_neg
    refine ⟨one_ne_zero, ?_⟩
    show (1 : ℝ) ≤ (Real.sqrt Real.pi)⁻¹ + (Real.sqrt Real.pi)⁻¹
    linarith
  refine ⟨?_, ?_, ?_, ?_⟩
  · rw [← mul_inv, hsq, mul_inv_cancel₀ Real.pi_ne_zero]
  · norm_num [Vector2.dot, Vector2.subtractVectors]
  · simp only [Core.handleBallsCollision, if_neg hguard, Vector2.add,
      Vector2.dot, Vector2.scale, Vector2.subtractVectors, Vector2.mk.injEq]
    norm_num
  · simp only [Core.handleBallsCollision, if_neg hguard, Vector2.add,
      Vector2.dot, Vector2.scale, Vector2.subtractVectors, Vector2.mk.injEq]
    norm_num

/-- Unfolding Cue.updateCharge in the charging state: power and shift are
recomputed from the elapsed time via the curve, with the normalized time
capped at 1. -/
theorem Cue.updateCharge_of_isCharging (c : Cue) (now : ℝ)
    (h : c.isCharging = true) :
    c.updateCharge now = { c with
      power := Cue.getCurveValue 100 10
        (min ((now - c.startChargeTime) / 2000) 1),
      shift := Cue.getCurveValue 30 0
        (min ((now - c.startChargeTime) / 2000) 1) } := by
  simp [Cue.updateCharge, h]

/-- The exponential ease-out curve is monotone in its time argument when the
range is oriented (min ≤ max). -/
theorem getCurveValue_mono (a b x y : ℝ) (hab : b ≤ a) (hxy : x ≤ y) :
    Cue.getCurveValue a b x ≤ Cue.getCurveValue a b y := by
  have h1 : Real.exp (-3 * y) ≤ Real.exp (-3 * x) :=
    Real.exp_le_exp.2 (by linarith)
  have h2 : (a - b) * Real.exp (-3 * y) ≤ (a - b) * Real.exp (-3 * x) :=
    mul_le_mul_of_nonneg_left h1 (by linarith)
  simp only [Cue.getCurveValue]
  linarith

/-- Claim C3 counterexample: at elapsed = chargeDuration (2000 ms) the charge
values sit on the curve at t_norm = 1, which is 100 − 90·e⁻³ ≈ 95.52 and
30 − 30·e⁻³ ≈ 28.51 — NOT exactly MAX_POWER = 100 and MAX_SHIFT = 30. -/
theorem C3_counterexample :
    (Cue.updateCharge (⟨0, ⟨1, 0⟩, none, true, 0, 0⟩ : Cue) 2000).power
      = 100 - 90 * Real.exp (-3) ∧
    (Cue.updateCharge (⟨0, ⟨1, 0⟩, none, true, 0, 0⟩ : Cue) 2000).power ≠ 100 ∧
    (Cue.updateCharge (⟨0, ⟨1, 0⟩, none, true, 0, 0⟩ : Cue) 2000).shift
      = 30 - 30 * Real.exp (-3) ∧
    (Cue.updateCharge (⟨0, ⟨1, 0⟩, none, true, 0, 0⟩ : Cue) 2000).shift ≠ 30 := by
  have hexp : (0 : ℝ) < Real.exp (-3) := Real.exp_pos _
  have hp : (Cue.updateCharge (⟨0, ⟨1, 0⟩, none, true, 0, 0⟩ : Cue) 2000).power
      = 100 - 90 * Real.exp (-3) := by
    rw [Cue.updateCharge_of_isCharging _ _ rfl]
    show Cue.getCurveValue 100 10 (min ((2000 - 0) / 2000) 1)
      = 100 - 90 * Real.exp (-3)
    norm_num [Cue.getCurveValue]
  have hs : (Cue.updateCharge (⟨0, ⟨1, 0⟩, none, true, 0, 0⟩ : Cue) 2000).shift
      = 30 - 30 * Real.exp (-3) := by
    rw [Cue.updateCharge_of_isCharging _ _ rfl]
    show Cue.getCurveValue 30 0 (min ((2000 - 0) / 2000) 1)
      = 30 - 30 * Real.exp (-3)
    norm_num [Cue.getCurveValue]
  refine ⟨hp, ?_, hs, ?_⟩
  · rw [hp]
    intro h
    nlinarith
  · rw [hs]
    intro h
    nlinarith

/-- Claim C3 amended: while charging, tick sampled at non-decreasing times
yields non-decreasing power and draw-back offset, and once elapsed time is at
least the charge duration (2000 ms) both are constant at their saturation
plateau — power = 100 − 90·e⁻³ and shift = 30 − 30·e⁻³, the curve's value at
t_norm = 1 (not exactly 100 and 30). -/
theorem C3_charge_monotone_saturation :
    (∀ (c : Cue) (t1 t2 : ℝ), c.isCharging = true → t1 ≤ t2 →
      (c.updateCharge t1).power ≤ (c.updateCharge t2).power ∧
      (c.updateCharge t1).shift ≤ (c.updateCharge t2).shift) ∧
    (∀ (c : Cue) (now : ℝ), c.isCharging = true →
      2000 ≤ now - c.startChargeTime →
      (c.updateCharge now).power = 100 - 90 * Real.exp (-3) ∧
      (c.updateCharge now).shift = 30 - 30 * Real.exp (-3)) := by
  constructor
  · intro c t1 t2 hc ht
    rw [Cue.updateCharge_of_isCharging c t1 hc,
      Cue.updateCharge_of_isCharging c t2 hc]
    have hmm : min ((t1 - c.startChargeTime) / 2000) 1
        ≤ min ((t2 - c.startChargeTime) / 2000) 1 := by
      refine min_le_min ?_ le_rfl
      gcongr
    constructor
    · exact getCurveValue_mono 100 10 _ _ (by norm_num) hmm
    · exact getCurveValue_mono 30 0 _ _ (by norm_num) hmm
  · intro c now hc hel
    rw [Cue.updateCharge_of_isCharging c now hc]
    have hmin : min ((now - c.startChargeTime) / 2000) 1 = 1 := by
      apply min_eq_right
      rw [le_div_iff₀ (by norm_num : (0 : ℝ) < 2000)]
      linarith
    constructor
    · show Cue.getCurveValue 100 10 (min ((now - c.startChargeTime) / 2000) 1)
        = 100 - 90 * Real.exp (-3)
      rw [hmin]
      norm_num [Cue.getCurveValue]
    · show Cue.getCurveValue 30 0 (min ((now - c.startChargeTime) / 2000) 1)
        = 30 - 30 * Real.exp (-3)
      rw [hmin]
      norm_num [Cue.getCurveValue]

/-- Witness for C3's amended theorem on a concrete charging cue (start time
0): power and shift are non-decreasing from sample time 500 to 1000, and at
sample time 2500 (elapsed 2500 ≥ 2000) they sit at the saturation plateau. -/
theorem C3_witness :
    (⟨0, ⟨1, 0⟩, none, true, 0, 0⟩ : Cue).isCharging = true ∧
    (500 : ℝ) ≤ 1000 ∧
    (2000 : ℝ) ≤ 2500 - (⟨0, ⟨1, 0⟩, none, true, 0, 0⟩ : Cue).startChargeTime ∧
    ((Cue.updateCharge (⟨0, ⟨1, 0⟩, none, true, 0, 0⟩ : Cue) 500).power
        ≤ (Cue.updateCharge (⟨0, ⟨1, 0⟩, none, true, 0, 0⟩ : Cue) 1000).power ∧
      (Cue.updateCharge (⟨0, ⟨1, 0⟩, none, true, 0, 0⟩ : Cue) 500).shift
        ≤ (Cue.updateCharge (⟨0, ⟨1, 0⟩, none, true, 0, 0⟩ : Cue) 1000).shift) ∧
    ((Cue.updateCharge (⟨0, ⟨1, 0⟩, none, true, 0, 0⟩ : Cue) 2500).power
        = 100 - 90 * Real.exp (-3) ∧
      (Cue.updateCharge (⟨0, ⟨1, 0⟩, none, true, 0, 0⟩ : Cue) 2500).shift
        = 30 - 30 * Real.exp (-3)) :=
  ⟨rfl, by norm_num, by norm_num,
    C3_charge_monotone_saturation.1 _ 500 1000 rfl (by norm_num),
    C3_charge_monotone_saturation.2 _ 2500 rfl (by norm_num)⟩
